import Mathlib

/-!
Verification of the picoscope-rapid-block repository.

The repository has two Python scripts:

* `block_capture_single.py`: a class `PicoBlockCap` wrapping the PicoScope
  ps5000a C API (via the picosdk ctypes bindings), followed by a module-level
  example script that configures the scope, runs three block acquisitions,
  plots each, and closes the device.
* `readhdf5.py`: a function `read_hdf5` that reads per-channel datasets from
  an HDF5 capture archive and plots a waveform and a pulse-height histogram
  for each active channel.

The vendor API is a closed C library; it is modelled as an oracle (`Device`)
that supplies the status code returned by each API function and the values the
API writes through its out-pointers.  Each Python method becomes a pure Lean
function from the object state (`PicoState`) and the oracle to a result, the
updated state, and the list of API/plot events the method emits, so that the
temporal claims become statements about event traces.
-/

namespace Pico

/-- 16-bit signed wrap-around: the value stored in a `ctypes.c_int16`. -/
def i16 (x : Int) : Int := (x + 32768).emod 65536 - 32768

/-- 32-bit signed wrap-around: the value stored in a `ctypes.c_int32`. -/
def i32 (x : Int) : Int := (x + 2147483648).emod 4294967296 - 2147483648

/-- Python's `round` on an exact rational `num / den` (`den > 0`):
round-half-to-even.  Used to model `picosdk.functions.mV2adc`, whose inputs in
this program are small integers, so the float division there is exact. -/
def pyRound (num den : Int) : Int :=
  let q := Int.fdiv num den
  let r := num - q * den
  if 2 * r < den then q
  else if den < 2 * r then q + 1
  else if q.emod 2 = 0 then q else q + 1

/-- `channelInputRanges` from `picosdk.functions`: full-scale input range in
millivolts for each enumerated range value. -/
def channelInputRanges : List Int :=
  [10, 20, 50, 100, 200, 500, 1000, 2000, 5000, 10000, 20000, 50000, 100000, 200000]

/-- `picosdk.functions.mV2adc(millivolts, range, maxADC)`:
`round((millivolts * maxADC.value) / channelInputRanges[range])`.
Modelled for `0 ≤ rng < 14`; the program only uses range 9 (±10 V, 10000 mV).
The Python caller wraps the result in `int(...)`, which is the identity on the
integer that `round` returns. -/
def mV2adc (millivolts : Int) (rng : Int) (maxADC : Int) : Int :=
  pyRound (millivolts * maxADC) (channelInputRanges.getD rng.toNat 1)

/-- Python-dict assignment `d[k] = v`: overwrite in place if the key exists
(keeping its position), otherwise append at the end. -/
def dictSet (d : List (String × Int)) (k : String) (v : Int) : List (String × Int) :=
  match d with
  | [] => [(k, v)]
  | (k', v') :: rest => if k' = k then (k, v) :: rest else (k', v') :: dictSet rest k v

/-- Python-dict lookup `d[k]` (as an `Option`). -/
def dictGet (d : List (String × Int)) (k : String) : Option Int :=
  match d with
  | [] => none
  | (k', v') :: rest => if k' = k then some v' else dictGet rest k

/-- One call into the ps5000a C API, with the arguments relevant to the
claims.  Out-pointer arguments (`byref`) are not recorded here; the values the
API writes through them come from the `Device` oracle. -/
inductive APICall
  | openUnit (resolution : Int)
  | maximumValue
  | setChannel (channel : Int) (enabled : Int) (coupling : Int) (rng : Int) (offset : Int)
  | setSimpleTrigger (enabled : Int) (source : Int) (threshold : Int)
      (direction : Int) (delay : Int) (autoMs : Int)
  | setDataBuffer (channel : Int) (bufferPtr : List Int) (bufLen : Int)
      (segment : Int) (mode : Int)
  | memorySegments (captures : Int)
  | setNoOfCaptures (captures : Int)
  | runBlock (preTriggerSamples : Int) (postTriggerSamples : Int) (timebase : Int)
  | isReady
  | getValuesBulk (fromSeg : Int) (toSeg : Int)
  | stop
  | closeUnit
  deriving Repr, DecidableEq

/-- An observable event of `block_capture_single.py`: an API call, or one of
the two matplotlib calls that render the capture buffer. -/
inductive Event
  | api (c : APICall)
  | plotBuffer
  | showPlot
  deriving Repr, DecidableEq

/-- Oracle for the closed vendor API.  `st_*` fields are the status codes the
corresponding API functions return; the other fields are the values the API
writes through out-pointers.  `ps5000aIsReady` is called in a loop, so its
status and the readiness value it writes are indexed by a global call counter;
likewise the sample count `ps5000aGetValuesBulk` writes back. -/
structure Device where
  handleVal : Int
  st_openunit : Int
  st_maximumValue : Int
  maxAdcVal : Int
  st_setChannel : Int → Int
  st_setSimpleTrigger : Int
  st_memorySegments : Int
  samplesPerSegVal : Int
  st_setNoOfCaptures : Int
  st_setDataBuffer : Int
  st_runBlock : Int
  st_isReady : Nat → Int
  readyVal : Nat → Int
  st_getValuesBulk : Int
  gvSamplesVal : Nat → Int
  st_stop : Int
  st_close : Int

/-- Counters for the oracle's call-indexed responses: how many `ps5000aIsReady`
and `ps5000aGetValuesBulk` calls have been issued so far. -/
structure Clocks where
  isReadyCalls : Nat
  gvCalls : Nat
  deriving Repr, DecidableEq

/-- The fields of a `PicoBlockCap` object (`block_capture_single.py`, lines
13–41).  ctypes cells are represented by the integer values they hold; the
list of numpy arrays `buffer` by a list of integer lists; the status dict by
an insertion-ordered association list.  The `overflow` array is written only
by the API and never read by the program, so it is not tracked. -/
structure PicoState where
  resolution : Int
  timebase : Int
  handle : Int
  max_adc : Int
  samples : Int
  max_samples : Int
  buffer : List (List Int)
  status : List (String × Int)
  ready : Int
  check : Int
  samples_per_seg : Int
  deriving Repr, DecidableEq

instance : Inhabited PicoState :=
  ⟨⟨1, 1, 0, 0, 0, 0, [], [], 0, 0, 0⟩⟩

/-- `PicoBlockCap.__init__(handle, buffer, buffer_size)`. -/
def mkPicoBlockCap (handle : Int) (buffer : List (List Int)) (buffer_size : Int) :
    PicoState :=
  { resolution := 1
    timebase := 1
    handle := i16 handle
    max_adc := 0
    samples := buffer_size
    max_samples := i32 buffer_size
    buffer := buffer
    status := []
    ready := 0
    check := 0
    samples_per_seg := 0 }

/-- `PicoBlockCap.open_unit(res)`: calls `ps5000aOpenUnit` (which writes the
handle) and `ps5000aMaximumValue` (which writes `max_adc`), storing both status
codes, and returns the openunit status. -/
def open_unit (s : PicoState) (dev : Device) (res : Int) :
    Int × PicoState × List Event :=
  let s1 := { s with handle := i16 dev.handleVal,
                     status := dictSet s.status "openunit" dev.st_openunit }
  let s2 := { s1 with max_adc := i16 dev.maxAdcVal,
                      status := dictSet s1.status "maximumValue" dev.st_maximumValue }
  (dev.st_openunit, s2, [Event.api (APICall.openUnit res), Event.api APICall.maximumValue])

/-- `PicoBlockCap.set_channel(channel, en, coupling, range, offset)`: passes
`int(en)` through to `ps5000aSetChannel` and returns its status (the caller
converts the Python bool; here `en` is already the integer). -/
def set_channel (s : PicoState) (dev : Device)
    (channel en coupling rng offset : Int) : Int × PicoState × List Event :=
  (dev.st_setChannel channel, s,
    [Event.api (APICall.setChannel channel en coupling rng offset)])

/-- `PicoBlockCap.set_simple_trigger(en, source, range, threshold_mv,
direction, delay, auto_ms)`: converts the millivolt threshold to ADC counts
with `int(mV2adc(threshold_mv, range, self.max_adc))` and passes it to
`ps5000aSetSimpleTrigger`, returning its status. -/
def set_simple_trigger (s : PicoState) (dev : Device)
    (en source rng threshold_mv direction delay auto_ms : Int) :
    Int × PicoState × List Event :=
  let threshold := mV2adc threshold_mv rng s.max_adc
  (dev.st_setSimpleTrigger, s,
    [Event.api (APICall.setSimpleTrigger en source threshold direction delay auto_ms)])

/-- `PicoBlockCap.set_buffer(channel, buffer, segment)`: registers the first
numpy array of `buffer` with the API, passing `self.max_samples` as the buffer
length.  `buffer[0]` raises `IndexError` on an empty list, modelled by
`none`. -/
def set_buffer (s : PicoState) (dev : Device) (channel : Int)
    (buffer : List (List Int)) (segment : Int) :
    Option (Int × PicoState × List Event) :=
  match buffer with
  | [] => none
  | b0 :: _ =>
    some (dev.st_setDataBuffer, s,
      [Event.api (APICall.setDataBuffer channel b0 s.max_samples segment 0)])

/-- `PicoBlockCap.set_captures(captures)`: calls `ps5000aMemorySegments`
(which writes `samples_per_seg`) and `ps5000aSetNoOfCaptures`, storing both
status codes, reallocates the untracked overflow array, and returns the
SetNoOfCaptures status. -/
def set_captures (s : PicoState) (dev : Device) (captures : Int) :
    Int × PicoState × List Event :=
  let s1 := { s with status := dictSet s.status "MemorySegments" dev.st_memorySegments,
                     samples_per_seg := i32 dev.samplesPerSegVal }
  let s2 := { s1 with status := dictSet s1.status "SetNoOfCaptures" dev.st_setNoOfCaptures }
  (dev.st_setNoOfCaptures, s2,
    [Event.api (APICall.memorySegments captures), Event.api (APICall.setNoOfCaptures captures)])

/-- `PicoBlockCap.initalise_parameters()`: the setup sequence — open the unit
with `self.resolution`, set channels 0–3 (only channel 0 enabled), set the
trigger, set one capture, and register `self.buffer`; each status code is
stored in the dict under the keys used in the source (the four `set_channel`
statuses all under `"set_source"`).  `none` only if `self.buffer` is empty
(the `buffer[0]` IndexError inside `set_buffer`). -/
def initalise_parameters (s : PicoState) (dev : Device) :
    Option (PicoState × List Event) :=
  let (r0, s0, t0) := open_unit s dev s.resolution
  let s0 := { s0 with status := dictSet s0.status "openunit" r0 }
  let (r1, s1, t1) := set_channel s0 dev 0 1 0 9 0
  let s1 := { s1 with status := dictSet s1.status "set_source" r1 }
  let (r2, s2, t2) := set_channel s1 dev 1 0 0 9 0
  let s2 := { s2 with status := dictSet s2.status "set_source" r2 }
  let (r3, s3, t3) := set_channel s2 dev 2 0 0 9 0
  let s3 := { s3 with status := dictSet s3.status "set_source" r3 }
  let (r4, s4, t4) := set_channel s3 dev 3 0 0 9 0
  let s4 := { s4 with status := dictSet s4.status "set_source" r4 }
  let (r5, s5, t5) := set_simple_trigger s4 dev 1 0 9 0 2 0 10
  let s5 := { s5 with status := dictSet s5.status "set_trigger" r5 }
  let (r6, s6, t6) := set_captures s5 dev 1
  let s6 := { s6 with status := dictSet s6.status "set_captures" r6 }
  (set_buffer s6 dev 0 s6.buffer 0).map fun sb =>
    ({ sb.2.1 with status := dictSet sb.2.1.status "set_buffer" sb.1 },
      t0 ++ t1 ++ t2 ++ t3 ++ t4 ++ t5 ++ t6 ++ sb.2.2)

/-- The `while self.ready.value == self.check.value:` loop of `run_block`
(lines 123–124): each iteration stores the `ps5000aIsReady` status and lets
the API write the readiness flag into `self.ready`.  `fuel` bounds the number
of iterations modelled; `none` means the loop did not exit within `fuel`
iterations.  Returns the final `ready` value, the new isReady call counter,
the updated status dict, and the emitted events. -/
def pollLoop (dev : Device) (chk : Int) :
    Int → Nat → List (String × Int) → Nat →
    Option (Int × Nat × List (String × Int) × List Event)
  | r, ck, st, 0 => if r = chk then none else some (r, ck, st, [])
  | r, ck, st, fuel + 1 =>
    if r = chk then
      (pollLoop dev chk (i16 (dev.readyVal ck)) (ck + 1)
          (dictSet st "isReady" (dev.st_isReady ck)) fuel).map
        (fun pout => (pout.1, pout.2.1, pout.2.2.1, Event.api APICall.isReady :: pout.2.2.2))
    else some (r, ck, st, [])

/-- `PicoBlockCap.run_block()`: issue `ps5000aRunBlock` (0 pre-trigger
samples, `self.samples` post-trigger samples, `self.timebase`), poll
`ps5000aIsReady` while `self.ready.value == self.check.value`, then call
`ps5000aGetValuesBulk` (which writes back into `self.max_samples` by
reference) and reset `self.ready` to `c_int16(0)`.  `none` when the poll loop
does not exit within `fuel` iterations. -/
def run_block (s : PicoState) (dev : Device) (ck : Clocks) (fuel : Nat) :
    Option (PicoState × Clocks × List Event) :=
  let s0 := { s with status := dictSet s.status "runblock" dev.st_runBlock }
  (pollLoop dev s0.check s0.ready ck.isReadyCalls s0.status fuel).map fun pout =>
    let s1 := { s0 with ready := pout.1, status := pout.2.2.1 }
    let s2 := { s1 with
      status := dictSet s1.status "GetValuesBulk" dev.st_getValuesBulk,
      max_samples := i32 (dev.gvSamplesVal ck.gvCalls) }
    let s3 := { s2 with ready := 0 }
    (s3, { isReadyCalls := pout.2.1, gvCalls := ck.gvCalls + 1 },
      Event.api (APICall.runBlock 0 s.samples s.timebase) :: pout.2.2.2
        ++ [Event.api (APICall.getValuesBulk 0 0)])

/-- `PicoBlockCap.stop_scope()`: `ps5000aStop` then `ps5000aCloseUnit` on the
same handle, storing both status codes and returning the close status. -/
def stop_scope (s : PicoState) (dev : Device) : Int × PicoState × List Event :=
  let s1 := { s with status := dictSet s.status "stop" dev.st_stop }
  let s2 := { s1 with status := dictSet s1.status "close" dev.st_close }
  (dev.st_close, s2, [Event.api APICall.stop, Event.api APICall.closeUnit])

/-- The `streaming_buffer` of the example script: one numpy array of 100000
zero int16 samples. -/
def streaming_buffer : List (List Int) := [List.replicate 100000 0]

/-- Lines 174–185 of the example script, from the third capture's state on:
switch from channel 0 to channel 1 (`set_channel` twice, statuses recorded),
re-register the buffer, re-set the trigger (status bound to a local,
unrecorded), run the third block capture, render the buffer, and stop the
scope. -/
def scriptTail (dev : Device) (t3 : PicoState) (ck3 : Clocks) (fuel : Nat) :
    Option (PicoState × List Event) :=
  let (ra, t4, tr4) := set_channel t3 dev 0 0 0 9 0
  let t4 := { t4 with status := dictSet t4.status "set_source" ra }
  let (rb, t5, tr5) := set_channel t4 dev 1 1 0 9 0
  let t5 := { t5 with status := dictSet t5.status "set_source" rb }
  (set_buffer t5 dev 1 t5.buffer 0).bind fun sb =>
    let t6 := { sb.2.1 with status := dictSet sb.2.1.status "set_buffer" sb.1 }
    let (_, t7, tr7) := set_simple_trigger t6 dev 1 1 9 0 2 0 10
    (run_block t7 dev ck3 fuel).map fun o3 =>
      let (_, t9, tr9) := stop_scope o3.1 dev
      (t9, tr4 ++ tr5 ++ sb.2.2 ++ tr7 ++ o3.2.2
        ++ [Event.plotBuffer, Event.showPlot] ++ tr9)

/-- The module-level example script of `block_capture_single.py` (lines
151–185): construct `PicoBlockCap(0, streaming_buffer, 100000)`, initialise,
run three block captures — plotting `streaming_buffer[0]` after each — with a
re-configuration from channel 0 to channel 1 before the third (the
`scriptTail` part), and finally stop the scope.  Each `run_block` poll loop
is given `fuel` iterations; `none` when one of them does not exit. -/
def script (dev : Device) (fuel : Nat) : Option (PicoState × List Event) :=
  let t0 := mkPicoBlockCap 0 streaming_buffer 100000
  (initalise_parameters t0 dev).bind fun ini =>
    (run_block ini.1 dev ⟨0, 0⟩ fuel).bind fun o1 =>
      (run_block o1.1 dev o1.2.1 fuel).bind fun o2 =>
        (scriptTail dev o2.1 o2.2.1 fuel).map fun q =>
          (q.1, ini.2 ++ o1.2.2 ++ [Event.plotBuffer, Event.showPlot]
            ++ o2.2.2 ++ [Event.plotBuffer, Event.showPlot] ++ q.2)

/-- An observable event of `readhdf5.py`: a dataset access (`f[name]`) or one
of the matplotlib rendering calls. -/
inductive HEvent
  | readDataset (name : String)
  | plotSeries (ys : List Int)
  | plotXY (xs ys : List Int)
  | showPlot
  deriving Repr, DecidableEq

/-- An opened HDF5 capture archive, as `read_hdf5` uses it: the
`active_channels` attribute of the `metadata` group (a list of channel ids),
and the top-level datasets, each a 2-D integer array given by its rows.
`none` for a dataset name means `f[name]` raises `KeyError`. -/
structure HFile where
  active_channels : List Nat
  datasets : String → Option (List (List Int))

/-- The `for ch in range(len(metadata['active_channels']))` loop body of
`read_hdf5` (lines 18–29), iterated over the channel ids in order: look up
`adc_counts_<id>` and `pha_<id>`, plot `counts[0][:]`, show, plot
`pha[0]` against `pha[1]` (style `'bo-'`), show, and print the shapes.
`none` models the exceptions: `KeyError` on a missing dataset, `IndexError`
when `counts` has no row or `pha` fewer than two rows. -/
def read_channels (f : HFile) : List Nat → Option (List HEvent)
  | [] => some []
  | id :: rest =>
    match f.datasets ("adc_counts_" ++ toString id),
          f.datasets ("pha_" ++ toString id) with
    | some counts, some pha =>
      match counts, pha with
      | c0 :: _, p0 :: p1 :: _ =>
        match read_channels f rest with
        | some tr =>
          some (HEvent.readDataset ("adc_counts_" ++ toString id)
              :: HEvent.readDataset ("pha_" ++ toString id)
              :: HEvent.plotSeries c0 :: HEvent.showPlot
              :: HEvent.plotXY p0 p1 :: HEvent.showPlot :: tr)
        | none => none
      | _, _ => none
    | _, _ => none

/-- `read_hdf5(filename)`: after printing the metadata attributes (console
output, not modelled), run the per-channel read-and-plot loop over
`metadata['active_channels']`. -/
def read_hdf5 (f : HFile) : Option (List HEvent) :=
  read_channels f f.active_channels

/-- First row of the named dataset (the waveform of the first capture), or
`[]` when absent. -/
def firstRow (f : HFile) (name : String) : List Int :=
  ((f.datasets name).getD []).headD []

/-- Second row of the named dataset, or `[]` when absent. -/
def secondRow (f : HFile) (name : String) : List Int :=
  (((f.datasets name).getD []).drop 1).headD []

instance : Inhabited Clocks := ⟨⟨0, 0⟩⟩

/-- The six events one loop iteration of `read_hdf5` emits for channel
`id`: the two dataset reads, the waveform plot of the first capture, and the
PHA plot of row 0 against row 1. -/
def channelBlock (f : HFile) (id : Nat) : List HEvent :=
  [HEvent.readDataset ("adc_counts_" ++ toString id),
   HEvent.readDataset ("pha_" ++ toString id),
   HEvent.plotSeries (firstRow f ("adc_counts_" ++ toString id)),
   HEvent.showPlot,
   HEvent.plotXY (firstRow f ("pha_" ++ toString id))
     (secondRow f ("pha_" ++ toString id)),
   HEvent.showPlot]

/-- Recognises a waveform plot (`plt.plot(counts[0][:])`). -/
def isWaveformPlot : HEvent → Bool
  | HEvent.plotSeries _ => true
  | _ => false

/-- Recognises a pulse-height-histogram plot (`plt.plot(pha[0], pha[1], 'bo-')`). -/
def isPHAPlot : HEvent → Bool
  | HEvent.plotXY _ _ => true
  | _ => false

/-- The non-status part of a `PicoBlockCap` object: the state with the
status dict erased.  Two states with equal `core` differ at most in the
status codes they have recorded. -/
def core (s : PicoState) : PicoState := { s with status := [] }

/-- Trace of one `run_block` acquisition that polled `k` times. -/
def acqTrace (samples timebase : Int) (k : Nat) : List Event :=
  Event.api (APICall.runBlock 0 samples timebase)
    :: (List.replicate k (Event.api APICall.isReady)
      ++ [Event.api (APICall.getValuesBulk 0 0)])

/-! ## Concrete instances used to instantiate the theorems -/

/-- A concrete device whose first `isReady` poll already reports ready. -/
def devW : Device :=
  { handleVal := 16384
    st_openunit := 10
    st_maximumValue := 11
    maxAdcVal := 32512
    st_setChannel := fun c => 20 + c
    st_setSimpleTrigger := 30
    st_memorySegments := 40
    samplesPerSegVal := 123456
    st_setNoOfCaptures := 41
    st_setDataBuffer := 50
    st_runBlock := 60
    st_isReady := fun n => 70 + n
    readyVal := fun _ => 1
    st_getValuesBulk := 80
    gvSamplesVal := fun n => 99990 + n
    st_stop := 90
    st_close := 91 }

/-- A concrete device that never reports ready. -/
def devZ : Device := { devW with readyVal := fun _ => 0 }

/-- `devW` with every status code changed but identical out-pointer
behaviour. -/
def devW2 : Device :=
  { devW with
    st_openunit := 1010
    st_maximumValue := 1011
    st_setChannel := fun c => 1020 + c
    st_setSimpleTrigger := 1030
    st_memorySegments := 1040
    st_setNoOfCaptures := 1041
    st_setDataBuffer := 1050
    st_runBlock := 1060
    st_isReady := fun n => 1070 + n
    st_getValuesBulk := 1080
    st_stop := 1090
    st_close := 1091 }

/-- A concrete HDF5 archive with one active channel. -/
def fW : HFile :=
  { active_channels := [7]
    datasets := fun n =>
      if n = "adc_counts_7" then some [[1, 2, 3]]
      else if n = "pha_7" then some [[0, 1, 2], [5, 0, 0]]
      else none }

/-! ## Lemmas about the poll loop -/

/-- Unfolding equation of `pollLoop` at zero remaining iterations. -/
theorem pollLoop_zero (dev : Device) (chk r : Int) (ck : Nat)
    (st : List (String × Int)) :
    pollLoop dev chk r ck st 0 = if r = chk then none else some (r, ck, st, []) := rfl

/-- Unfolding equation of `pollLoop` for one more allowed iteration. -/
theorem pollLoop_succ (dev : Device) (chk r : Int) (ck : Nat)
    (st : List (String × Int)) (fuel : Nat) :
    pollLoop dev chk r ck st (fuel + 1) =
      if r = chk then
        (pollLoop dev chk (i16 (dev.readyVal ck)) (ck + 1)
            (dictSet st "isReady" (dev.st_isReady ck)) fuel).map
          (fun pout => (pout.1, pout.2.1, pout.2.2.1, Event.api APICall.isReady :: pout.2.2.2))
      else some (r, ck, st, []) := rfl

/-- If the ready flag already differs from the check value, the while loop
exits immediately: no iteration, no event. -/
theorem pollLoop_exit_ne (dev : Device) (chk r : Int) (ck : Nat)
    (st : List (String × Int)) (fuel : Nat) (h : r ≠ chk) :
    pollLoop dev chk r ck st fuel = some (r, ck, st, []) := by
  cases fuel <;> simp [pollLoop, h]

/-- Shape of a successful poll: starting with `ready = check`, the loop runs
`k ≥ 1` iterations, emits exactly `k` `isReady` calls, every readiness value
before the last equals the check value, and the final one differs. -/
theorem pollLoop_some_spec (dev : Device) (chk : Int) :
    ∀ (fuel ck : Nat) (st : List (String × Int))
      (pout : Int × Nat × List (String × Int) × List Event),
      pollLoop dev chk chk ck st fuel = some pout →
      ∃ k, 1 ≤ k ∧ pout.2.1 = ck + k ∧
        pout.2.2.2 = List.replicate k (Event.api APICall.isReady) ∧
        pout.1 = i16 (dev.readyVal (ck + k - 1)) ∧ pout.1 ≠ chk ∧
        ∀ i < k - 1, i16 (dev.readyVal (ck + i)) = chk := by
  intro fuel
  induction fuel with
  | zero =>
    intro ck st pout h
    simp [pollLoop] at h
  | succ n ih =>
    intro ck st pout h
    rw [pollLoop_succ, if_pos rfl] at h
    by_cases hr : i16 (dev.readyVal ck) = chk
    · rw [hr] at h
      rw [Option.map_eq_some'] at h
      obtain ⟨val, hin, hval⟩ := h
      obtain ⟨k, hk1, hkcf, hktr, hkrf, hkne, hkall⟩ := ih (ck + 1) _ val hin
      subst hval
      refine ⟨k + 1, by omega, ?_, ?_, ?_, ?_, ?_⟩
      · show val.2.1 = ck + (k + 1)
        rw [hkcf]; omega
      · show Event.api APICall.isReady :: val.2.2.2 = _
        rw [hktr, List.replicate_succ]
      · show val.1 = i16 (dev.readyVal (ck + (k + 1) - 1))
        have harith : ck + (k + 1) - 1 = ck + 1 + k - 1 := by omega
        rw [hkrf, harith]
      · exact hkne
      · intro i hi
        cases i with
        | zero => simpa using hr
        | succ j =>
          have hj : j < k - 1 := by omega
          have := hkall j hj
          have harith : ck + 1 + j = ck + (j + 1) := by omega
          rwa [harith] at this
    · rw [pollLoop_exit_ne dev chk _ _ _ n hr] at h
      rw [Option.map_eq_some'] at h
      obtain ⟨val, hin, hval⟩ := h
      obtain rfl := (Option.some.inj hin).symm
      subst hval
      refine ⟨1, le_refl 1, rfl, rfl, ?_, hr, ?_⟩
      · show i16 (dev.readyVal ck) = i16 (dev.readyVal (ck + 1 - 1))
        congr 1
      · intro i hi; omega

/-- If some later `isReady` call would report a value different from the check
value, the loop exits within that many iterations. -/
theorem pollLoop_terminates (dev : Device) (chk : Int) :
    ∀ (m ck : Nat) (st : List (String × Int)),
      i16 (dev.readyVal (ck + m)) ≠ chk →
      (pollLoop dev chk chk ck st (m + 1)).isSome := by
  intro m
  induction m with
  | zero =>
    intro ck st h
    rw [Nat.add_zero] at h
    rw [pollLoop_succ, if_pos rfl, pollLoop_exit_ne dev chk _ _ _ 0 h]
    simp
  | succ n ih =>
    intro ck st h
    rw [pollLoop_succ, if_pos rfl]
    by_cases hr : i16 (dev.readyVal ck) = chk
    · rw [hr]
      have hh : i16 (dev.readyVal (ck + 1 + n)) ≠ chk := by
        have harith : ck + 1 + n = ck + (n + 1) := by omega
        rwa [harith]
      have := ih (ck + 1) (dictSet st "isReady" (dev.st_isReady ck)) hh
      simpa using this
    · rw [pollLoop_exit_ne dev chk _ _ _ (n + 1) hr]
      simp

/-- If the device never reports ready (every written value equals the check
value), the loop never exits, whatever the iteration bound. -/
theorem pollLoop_stuck (dev : Device) (chk : Int)
    (hall : ∀ n, i16 (dev.readyVal n) = chk) :
    ∀ (fuel ck : Nat) (st : List (String × Int)),
      pollLoop dev chk chk ck st fuel = none := by
  intro fuel
  induction fuel with
  | zero => intro ck st; simp [pollLoop_zero]
  | succ n ih =>
    intro ck st
    rw [pollLoop_succ, if_pos rfl, hall ck, ih]
    rfl

/-! ## Lemmas about `run_block` -/

/-- Full description of a successful `run_block` started with
`ready = check`: the emitted trace is `RunBlock`, then `k ≥ 1` `IsReady`
polls, then `GetValuesBulk`; the readiness values polled before the last all
equal the check value and the last one differs; the clocks advance by `k`
isReady calls and one GetValuesBulk call; and the resulting state has
`ready` reset to `0`, `max_samples` overwritten by the sample count the API
wrote back, and every other non-status field unchanged. -/
theorem run_block_some_spec (s : PicoState) (dev : Device) (ck : Clocks) (fuel : Nat)
    (out : PicoState × Clocks × List Event)
    (hready : s.ready = s.check)
    (h : run_block s dev ck fuel = some out) :
    ∃ k, 1 ≤ k ∧
      out.2.2 = Event.api (APICall.runBlock 0 s.samples s.timebase)
        :: (List.replicate k (Event.api APICall.isReady)
          ++ [Event.api (APICall.getValuesBulk 0 0)]) ∧
      out.2.1 = ⟨ck.isReadyCalls + k, ck.gvCalls + 1⟩ ∧
      i16 (dev.readyVal (ck.isReadyCalls + k - 1)) ≠ s.check ∧
      (∀ i < k - 1, i16 (dev.readyVal (ck.isReadyCalls + i)) = s.check) ∧
      out.1.ready = 0 ∧ out.1.check = s.check ∧ out.1.max_adc = s.max_adc ∧
      out.1.samples = s.samples ∧ out.1.timebase = s.timebase ∧
      out.1.buffer = s.buffer ∧ out.1.resolution = s.resolution ∧
      out.1.handle = s.handle ∧
      out.1.max_samples = i32 (dev.gvSamplesVal ck.gvCalls) ∧
      out.1.samples_per_seg = s.samples_per_seg := by
  simp only [run_block] at h
  rw [hready] at h
  rw [Option.map_eq_some'] at h
  obtain ⟨pout, hpoll, hval⟩ := h
  obtain ⟨k, hk1, hkcf, hktr, hkrf, hkne, hkall⟩ :=
    pollLoop_some_spec dev s.check fuel ck.isReadyCalls _ pout hpoll
  subst hval
  exact ⟨k, hk1, by simp [hktr], by simp [hkcf], by rw [← hkrf]; exact hkne,
    hkall, rfl, rfl, rfl, rfl, rfl, rfl, rfl, rfl, rfl, rfl⟩

/-! ## Status codes never influence control flow -/

/-- Looking up a key just written. -/
theorem dictGet_dictSet_same (k : String) (v : Int) :
    ∀ d : List (String × Int), dictGet (dictSet d k v) k = some v := by
  intro d
  induction d with
  | nil => simp [dictSet, dictGet]
  | cons p rest ih =>
    obtain ⟨k', v'⟩ := p
    by_cases hk : k' = k
    · simp [dictSet, dictGet, hk]
    · simp [dictSet, dictGet, hk, ih]

/-- Writing one key leaves the others unchanged. -/
theorem dictGet_dictSet_other (k k' : String) (v : Int) (hne : k' ≠ k) :
    ∀ d : List (String × Int), dictGet (dictSet d k' v) k = dictGet d k := by
  intro d
  induction d with
  | nil => simp [dictSet, dictGet, hne]
  | cons p rest ih =>
    obtain ⟨k0, v0⟩ := p
    by_cases hk : k0 = k'
    · subst hk
      simp [dictSet, dictGet, hne]
    · simp [dictSet, dictGet, hk, ih]

/-- The poll loop's exit value, call count and trace depend only on the
device's readiness values, not on the status codes nor on the status dict
threaded through it. -/
theorem pollLoop_sim (dev1 dev2 : Device) (hrv : dev1.readyVal = dev2.readyVal)
    (chk : Int) :
    ∀ (fuel : Nat) (r : Int) (ck : Nat) (st1 st2 : List (String × Int)),
      Option.map (fun p => (p.1, p.2.1, p.2.2.2)) (pollLoop dev1 chk r ck st1 fuel)
        = Option.map (fun p => (p.1, p.2.1, p.2.2.2)) (pollLoop dev2 chk r ck st2 fuel) := by
  intro fuel
  induction fuel with
  | zero =>
    intro r ck st1 st2
    by_cases hr : r = chk <;> simp [pollLoop_zero, hr]
  | succ n ih =>
    intro r ck st1 st2
    by_cases hr : r = chk
    · rw [pollLoop_succ, pollLoop_succ, if_pos hr, if_pos hr, hrv]
      have hcomp : ∀ (d : Device) (x : Option (Int × Nat × List (String × Int) × List Event)),
          Option.map (fun p => (p.1, p.2.1, p.2.2.2))
            (x.map (fun pout => (pout.1, pout.2.1, pout.2.2.1,
              Event.api APICall.isReady :: pout.2.2.2)))
            = (x.map (fun p => (p.1, p.2.1, p.2.2.2))).map
              (fun t => (t.1, t.2.1, Event.api APICall.isReady :: t.2.2)) := by
        intro d x
        cases x <;> rfl
      rw [hcomp dev1, hcomp dev2,
        ih (i16 (dev2.readyVal ck)) (ck + 1)
          (dictSet st1 "isReady" (dev1.st_isReady ck))
          (dictSet st2 "isReady" (dev2.st_isReady ck))]
    · rw [pollLoop_succ, pollLoop_succ, if_neg hr, if_neg hr]
      rfl

/-- `run_block` is status-agnostic: on states equal up to recorded statuses
and devices differing only in status codes, it produces the same trace, the
same clock advance, and result states again equal up to statuses. -/
theorem run_block_sim (dev1 dev2 : Device)
    (hh : dev1.handleVal = dev2.handleVal) (hm : dev1.maxAdcVal = dev2.maxAdcVal)
    (hs : dev1.samplesPerSegVal = dev2.samplesPerSegVal)
    (hrv : dev1.readyVal = dev2.readyVal) (hg : dev1.gvSamplesVal = dev2.gvSamplesVal)
    (s1 s2 : PicoState) (hcore : core s1 = core s2) (ck : Clocks) (fuel : Nat) :
    Option.map (fun o => (core o.1, o.2.1, o.2.2)) (run_block s1 dev1 ck fuel)
      = Option.map (fun o => (core o.1, o.2.1, o.2.2)) (run_block s2 dev2 ck fuel) := by
  obtain ⟨r1, t1, h1, m1, sa1, ms1, b1, st1, rd1, c1, sp1⟩ := s1
  obtain ⟨r2, t2, h2, m2, sa2, ms2, b2, st2, rd2, c2, sp2⟩ := s2
  simp only [core, PicoState.mk.injEq, and_true, true_and] at hcore
  obtain ⟨rfl, rfl, rfl, rfl, rfl, rfl, rfl, rfl, rfl, rfl⟩ := hcore
  simp only [run_block]
  have hsim := pollLoop_sim dev1 dev2 hrv c1 fuel rd1 ck.isReadyCalls
    (dictSet st1 "runblock" dev1.st_runBlock) (dictSet st2 "runblock" dev2.st_runBlock)
  cases hp1 : pollLoop dev1 c1 rd1 ck.isReadyCalls
      (dictSet st1 "runblock" dev1.st_runBlock) fuel with
  | none =>
    cases hp2 : pollLoop dev2 c1 rd1 ck.isReadyCalls
        (dictSet st2 "runblock" dev2.st_runBlock) fuel with
    | none => rfl
    | some v2 => rw [hp1, hp2] at hsim; exact absurd hsim (by simp)
  | some v1 =>
    cases hp2 : pollLoop dev2 c1 rd1 ck.isReadyCalls
        (dictSet st2 "runblock" dev2.st_runBlock) fuel with
    | none => rw [hp1, hp2] at hsim; exact absurd hsim (by simp)
    | some v2 =>
      rw [hp1, hp2] at hsim
      simp only [Option.map_some', Option.some.injEq, Prod.mk.injEq] at hsim
      obtain ⟨hv1, hv2, hv3⟩ := hsim
      simp only [Option.map_some', Option.some.injEq, Prod.mk.injEq]
      refine ⟨?_, ?_, ?_⟩
      · simp [core, hg, hv1]
      · simp [hv2]
      · rw [hv3]

/-- Simulation combinator for `Option.bind`: if the inputs agree up to the
projection `p` and the continuations map `p`-equal inputs to `q`-equal
outputs, the composites agree up to `q`. -/
theorem bind_sim {α β γ δ : Type} (x1 x2 : Option α) (p : α → γ) (q : β → δ)
    (f1 f2 : α → Option β)
    (hx : x1.map p = x2.map p)
    (hf : ∀ a1 a2, p a1 = p a2 → (f1 a1).map q = (f2 a2).map q) :
    (x1.bind f1).map q = (x2.bind f2).map q := by
  cases x1 with
  | none =>
    cases x2 with
    | none => rfl
    | some a2 => simp at hx
  | some a1 =>
    cases x2 with
    | none => simp at hx
    | some a2 =>
      simp only [Option.map_some', Option.some.injEq] at hx
      simp only [Option.some_bind]
      exact hf a1 a2 hx

/-- Simulation combinator for `Option.map`. -/
theorem map_sim {α β γ δ : Type} (x1 x2 : Option α) (p : α → γ) (q : β → δ)
    (f1 f2 : α → β)
    (hx : x1.map p = x2.map p)
    (hf : ∀ a1 a2, p a1 = p a2 → q (f1 a1) = q (f2 a2)) :
    (x1.map f1).map q = (x2.map f2).map q := by
  cases x1 with
  | none =>
    cases x2 with
    | none => rfl
    | some a2 => simp at hx
  | some a1 =>
    cases x2 with
    | none => simp at hx
    | some a2 =>
      simp only [Option.map_some', Option.some.injEq] at hx
      simp only [Option.map_some', Option.some.injEq]
      exact hf a1 a2 hx

/-- `initalise_parameters` is status-agnostic: same trace and same resulting
state up to recorded statuses. -/
theorem init_sim (dev1 dev2 : Device)
    (hh : dev1.handleVal = dev2.handleVal) (hm : dev1.maxAdcVal = dev2.maxAdcVal)
    (hs : dev1.samplesPerSegVal = dev2.samplesPerSegVal)
    (s1 s2 : PicoState) (hcore : core s1 = core s2) :
    Option.map (fun o => (core o.1, o.2)) (initalise_parameters s1 dev1)
      = Option.map (fun o => (core o.1, o.2)) (initalise_parameters s2 dev2) := by
  obtain ⟨r1, t1, h1v, m1, sa1, ms1, b1, st1, rd1, c1, sp1⟩ := s1
  obtain ⟨r2, t2, h2v, m2, sa2, ms2, b2, st2, rd2, c2, sp2⟩ := s2
  simp only [core, PicoState.mk.injEq, and_true, true_and] at hcore
  obtain ⟨rfl, rfl, rfl, rfl, rfl, rfl, rfl, rfl, rfl, rfl⟩ := hcore
  simp only [initalise_parameters, open_unit, set_channel, set_simple_trigger,
    set_captures, set_buffer]
  cases b1 with
  | nil => rfl
  | cons b0 brest =>
    simp [core, hh, hm, hs]

/-- `scriptTail` is status-agnostic. -/
theorem scriptTail_sim (dev1 dev2 : Device)
    (hh : dev1.handleVal = dev2.handleVal) (hm : dev1.maxAdcVal = dev2.maxAdcVal)
    (hs : dev1.samplesPerSegVal = dev2.samplesPerSegVal)
    (hrv : dev1.readyVal = dev2.readyVal) (hg : dev1.gvSamplesVal = dev2.gvSamplesVal)
    (t3 t3' : PicoState) (hcore : core t3 = core t3') (ck3 : Clocks) (fuel : Nat) :
    Option.map (fun o => (core o.1, o.2)) (scriptTail dev1 t3 ck3 fuel)
      = Option.map (fun o => (core o.1, o.2)) (scriptTail dev2 t3' ck3 fuel) := by
  obtain ⟨r1, t1, h1v, m1, sa1, ms1, b1, st1, rd1, c1, sp1⟩ := t3
  obtain ⟨r2, t2, h2v, m2, sa2, ms2, b2, st2, rd2, c2, sp2⟩ := t3'
  simp only [core, PicoState.mk.injEq, and_true, true_and] at hcore
  obtain ⟨rfl, rfl, rfl, rfl, rfl, rfl, rfl, rfl, rfl, rfl⟩ := hcore
  simp only [scriptTail, set_channel, set_simple_trigger, set_buffer, stop_scope]
  cases b1 with
  | nil => rfl
  | cons b0 brest =>
    simp only [Option.some_bind]
    apply map_sim
    · exact run_block_sim dev1 dev2 hh hm hs hrv hg _ _ (by rfl) ck3 fuel
    · intro a1 a2 hpa
      simp only [Prod.mk.injEq] at hpa
      obtain ⟨hc, hck, htr⟩ := hpa
      simp only [Prod.mk.injEq]
      constructor
      · exact hc
      · rw [htr]

/-- The whole example script is status-agnostic: with the status codes of
every API function changed arbitrarily, the script emits the identical event
trace (and succeeds or spins identically). -/
theorem script_sim (dev1 dev2 : Device)
    (hh : dev1.handleVal = dev2.handleVal) (hm : dev1.maxAdcVal = dev2.maxAdcVal)
    (hs : dev1.samplesPerSegVal = dev2.samplesPerSegVal)
    (hrv : dev1.readyVal = dev2.readyVal) (hg : dev1.gvSamplesVal = dev2.gvSamplesVal)
    (fuel : Nat) :
    Option.map (fun out => out.2) (script dev1 fuel)
      = Option.map (fun out => out.2) (script dev2 fuel) := by
  simp only [script]
  apply bind_sim
  · exact init_sim dev1 dev2 hh hm hs _ _ rfl
  · intro a1 a2 hpa
    simp only [Prod.mk.injEq] at hpa
    obtain ⟨hc1, ht1⟩ := hpa
    apply bind_sim
    · exact run_block_sim dev1 dev2 hh hm hs hrv hg _ _ hc1 ⟨0, 0⟩ fuel
    · intro b1 b2 hpb
      simp only [Prod.mk.injEq] at hpb
      obtain ⟨hc2, hck2, ht2⟩ := hpb
      rw [← hck2]
      apply bind_sim
      · exact run_block_sim dev1 dev2 hh hm hs hrv hg _ _ hc2 b1.2.1 fuel
      · intro c1 c2 hpc
        simp only [Prod.mk.injEq] at hpc
        obtain ⟨hc3, hck3, ht3⟩ := hpc
        rw [← hck3]
        apply map_sim
        · exact scriptTail_sim dev1 dev2 hh hm hs hrv hg _ _ hc3 c1.2.1 fuel
        · intro q1 q2 hpq
          simp only [Prod.mk.injEq] at hpq
          obtain ⟨hcq, htq⟩ := hpq
          simp only []
          rw [ht1, ht2, ht3, htq]

/-! ## The example script -/

/-- A zero-millivolt threshold converts to zero ADC counts, whatever the
max-ADC value (range 9, the one the script uses). -/
theorem mV2adc_zero (m : Int) : mV2adc 0 9 m = 0 := by
  unfold mV2adc
  rw [zero_mul]
  decide

/-- `c_int32(100000)` holds 100000. -/
theorem i32_100000 : i32 100000 = 100000 := by decide

/-- Trace and final-status shape of a successful `scriptTail` run: the two
channel switches, the buffer re-registration (with the current
`max_samples`), the trigger re-set, a full acquisition, the rendering, and
`Stop`/`CloseUnit`; the resulting status dict ends with the stop and close
statuses. -/
theorem scriptTail_spec (dev : Device) (t3 : PicoState) (ck3 : Clocks) (fuel : Nat)
    (q : PicoState × List Event) (b0 : List Int) (brest : List (List Int))
    (hb : t3.buffer = b0 :: brest) (hrd : t3.ready = 0) (hch : t3.check = 0)
    (h : scriptTail dev t3 ck3 fuel = some q) :
    ∃ k3, 1 ≤ k3 ∧
      q.2 = [Event.api (APICall.setChannel 0 0 0 9 0),
             Event.api (APICall.setChannel 1 1 0 9 0),
             Event.api (APICall.setDataBuffer 1 b0 t3.max_samples 0 0),
             Event.api (APICall.setSimpleTrigger 1 1 (mV2adc 0 9 t3.max_adc) 2 0 10)]
        ++ acqTrace t3.samples t3.timebase k3
        ++ [Event.plotBuffer, Event.showPlot]
        ++ [Event.api APICall.stop, Event.api APICall.closeUnit] ∧
      (∃ st0, q.1.status
        = dictSet (dictSet st0 "stop" dev.st_stop) "close" dev.st_close) := by
  simp only [scriptTail, set_channel, set_simple_trigger, set_buffer,
    stop_scope, hb, Option.some_bind] at h
  rw [Option.map_eq_some'] at h
  obtain ⟨o3, ho3, hval⟩ := h
  obtain ⟨k3, hk31, htr, hck, hne, hall, hrest⟩ :=
    run_block_some_spec _ dev ck3 fuel o3 (by simp [hrd, hch]) ho3
  subst hval
  refine ⟨k3, hk31, ?_, ⟨_, rfl⟩⟩
  simp only [htr, acqTrace]
  simp only [List.append_assoc, List.cons_append, List.nil_append]

set_option maxRecDepth 8000 in
/-- Full trace of the example script: the ten setup calls of
`initalise_parameters` in order, then three acquisitions — each a `RunBlock`,
`k ≥ 1` `IsReady` polls, one `GetValuesBulk`, followed by rendering the
buffer — with the channel-0-to-channel-1 re-configuration before the third,
and finally `Stop` and `CloseUnit`; the final status dict ends with the stop
and close statuses. -/
theorem script_trace_spec (dev : Device) (fuel : Nat)
    (out : PicoState × List Event)
    (h : script dev fuel = some out) :
    ∃ k1 k2 k3, 1 ≤ k1 ∧ 1 ≤ k2 ∧ 1 ≤ k3 ∧
      out.2 =
        [Event.api (APICall.openUnit 1), Event.api APICall.maximumValue,
         Event.api (APICall.setChannel 0 1 0 9 0),
         Event.api (APICall.setChannel 1 0 0 9 0),
         Event.api (APICall.setChannel 2 0 0 9 0),
         Event.api (APICall.setChannel 3 0 0 9 0),
         Event.api (APICall.setSimpleTrigger 1 0 0 2 0 10),
         Event.api (APICall.memorySegments 1),
         Event.api (APICall.setNoOfCaptures 1),
         Event.api (APICall.setDataBuffer 0 (List.replicate 100000 0) 100000 0 0)]
        ++ acqTrace 100000 1 k1
        ++ [Event.plotBuffer, Event.showPlot]
        ++ acqTrace 100000 1 k2
        ++ [Event.plotBuffer, Event.showPlot]
        ++ [Event.api (APICall.setChannel 0 0 0 9 0),
            Event.api (APICall.setChannel 1 1 0 9 0),
            Event.api (APICall.setDataBuffer 1 (List.replicate 100000 0)
              (i32 (dev.gvSamplesVal 1)) 0 0),
            Event.api (APICall.setSimpleTrigger 1 1 0 2 0 10)]
        ++ acqTrace 100000 1 k3
        ++ [Event.plotBuffer, Event.showPlot]
        ++ [Event.api APICall.stop, Event.api APICall.closeUnit] ∧
      (∃ st0, out.1.status
        = dictSet (dictSet st0 "stop" dev.st_stop) "close" dev.st_close) := by
  simp only [script, initalise_parameters, mkPicoBlockCap, streaming_buffer,
    open_unit, set_channel, set_simple_trigger, set_captures, set_buffer,
    mV2adc_zero, i32_100000, Option.map_some', Option.some_bind] at h
  rw [Option.bind_eq_some] at h
  obtain ⟨o1, ho1, h⟩ := h
  obtain ⟨k1, hk11, htr1, hck1, hne1, hall1, hrd1, hch1, hma1, hsa1, htb1,
    hbf1, hre1, hhd1, hms1, hsp1⟩ :=
    run_block_some_spec _ dev ⟨0, 0⟩ fuel o1 rfl ho1
  rw [Option.bind_eq_some] at h
  obtain ⟨o2, ho2, h⟩ := h
  obtain ⟨k2, hk21, htr2, hck2, hne2, hall2, hrd2, hch2, hma2, hsa2, htb2,
    hbf2, hre2, hhd2, hms2, hsp2⟩ :=
    run_block_some_spec _ dev o1.2.1 fuel o2 (by simp [hrd1, hch1]) ho2
  rw [Option.map_eq_some'] at h
  obtain ⟨q, hq, hval⟩ := h
  have hb : o2.1.buffer = List.replicate 100000 0 :: [] := by
    rw [hbf2, hbf1]
  obtain ⟨k3, hk31, htr3, hst3⟩ :=
    scriptTail_spec dev o2.1 o2.2.1 fuel q _ _ hb hrd2
      (by simp [hch2, hch1]) hq
  subst hval
  rw [hms2, hma2, hsa2, htb2, hma1, hsa1, htb1] at htr3
  rw [hck1] at hms2 htr3
  simp only [Nat.zero_add] at htr3
  rw [mV2adc_zero] at htr3
  rw [hsa1, htb1] at htr2
  refine ⟨k1, k2, k3, hk11, hk21, hk31, ?_, hst3⟩
  simp only [htr1, htr2, htr3, acqTrace]
  simp only [Nat.zero_add, List.append_assoc, List.cons_append,
    List.nil_append]

/-- C5: no returned API status code is ever checked, branched on, or used
for recovery.  Formally: with every status code of every API function
changed arbitrarily (devices agreeing only on the values written through
out-pointers), the script emits the identical event trace and succeeds or
spins identically — execution proceeds regardless of status values — while
each operation's status is stored unconditionally (in particular the final
stop/close statuses are retrievable from the status dict). -/
theorem statuses_never_checked :
    (∀ (dev1 dev2 : Device) (fuel : Nat),
      dev1.handleVal = dev2.handleVal → dev1.maxAdcVal = dev2.maxAdcVal →
      dev1.samplesPerSegVal = dev2.samplesPerSegVal →
      dev1.readyVal = dev2.readyVal → dev1.gvSamplesVal = dev2.gvSamplesVal →
      Option.map (fun out => out.2) (script dev1 fuel)
        = Option.map (fun out => out.2) (script dev2 fuel)) ∧
    (∀ (dev : Device) (fuel : Nat) (out : PicoState × List Event),
      script dev fuel = some out →
      dictGet out.1.status "close" = some dev.st_close ∧
      dictGet out.1.status "stop" = some dev.st_stop) := by
  constructor
  · intro dev1 dev2 fuel hh hm hs hrv hg
    exact script_sim dev1 dev2 hh hm hs hrv hg fuel
  · intro dev fuel out h
    obtain ⟨k1, k2, k3, hk1, hk2, hk3, htr, st0, hst0⟩ :=
      script_trace_spec dev fuel out h
    rw [hst0]
    refine ⟨dictGet_dictSet_same "close" dev.st_close _, ?_⟩
    rw [dictGet_dictSet_other "stop" "close" dev.st_close (by decide) _]
    exact dictGet_dictSet_same "stop" dev.st_stop _

/-- Witness for C5: `devW2` differs from `devW` in every status code, yet
the concrete script runs produce the same trace; the stop/close statuses are
stored in the final status dict. -/
theorem statuses_never_checked_witness :
    Option.map (fun out => out.2) (script devW 1)
      = Option.map (fun out => out.2) (script devW2 1) ∧
    script devW 1 = some ((script devW 1).getD default) ∧
    dictGet ((script devW 1).getD default).1.status "close" = some devW.st_close ∧
    dictGet ((script devW 1).getD default).1.status "stop" = some devW.st_stop :=
  ⟨statuses_never_checked.1 devW devW2 1 rfl rfl rfl rfl rfl,
    rfl, statuses_never_checked.2 devW 1 _ rfl⟩

/-- C3: the capture utility performs its device-API operations in the fixed
sequence open unit, set channels 0–3, set trigger, set capture count, set
data buffer (all inside `initalise_parameters`, in that order), then for
each acquisition a blocking `RunBlock`, the `IsReady` completion polls, the
`GetValuesBulk` read-back, and the rendering of the buffer — with the
channel-switch re-configuration before the third acquisition — and finally
`Stop` and `CloseUnit`. -/
theorem script_fixed_call_sequence (dev : Device) (fuel : Nat)
    (out : PicoState × List Event)
    (h : script dev fuel = some out) :
    ∃ k1 k2 k3, 1 ≤ k1 ∧ 1 ≤ k2 ∧ 1 ≤ k3 ∧
      out.2 =
        [Event.api (APICall.openUnit 1), Event.api APICall.maximumValue,
         Event.api (APICall.setChannel 0 1 0 9 0),
         Event.api (APICall.setChannel 1 0 0 9 0),
         Event.api (APICall.setChannel 2 0 0 9 0),
         Event.api (APICall.setChannel 3 0 0 9 0),
         Event.api (APICall.setSimpleTrigger 1 0 0 2 0 10),
         Event.api (APICall.memorySegments 1),
         Event.api (APICall.setNoOfCaptures 1),
         Event.api (APICall.setDataBuffer 0 (List.replicate 100000 0) 100000 0 0)]
        ++ acqTrace 100000 1 k1
        ++ [Event.plotBuffer, Event.showPlot]
        ++ acqTrace 100000 1 k2
        ++ [Event.plotBuffer, Event.showPlot]
        ++ [Event.api (APICall.setChannel 0 0 0 9 0),
            Event.api (APICall.setChannel 1 1 0 9 0),
            Event.api (APICall.setDataBuffer 1 (List.replicate 100000 0)
              (i32 (dev.gvSamplesVal 1)) 0 0),
            Event.api (APICall.setSimpleTrigger 1 1 0 2 0 10)]
        ++ acqTrace 100000 1 k3
        ++ [Event.plotBuffer, Event.showPlot]
        ++ [Event.api APICall.stop, Event.api APICall.closeUnit] := by
  obtain ⟨k1, k2, k3, hk1, hk2, hk3, htr, hst⟩ := script_trace_spec dev fuel out h
  exact ⟨k1, k2, k3, hk1, hk2, hk3, htr⟩

/-- Witness for C3 at a concrete device (ready on the first poll). -/
theorem script_fixed_call_sequence_witness :
    script devW 1 = some ((script devW 1).getD default) ∧
    (∃ k1 k2 k3, 1 ≤ k1 ∧ 1 ≤ k2 ∧ 1 ≤ k3 ∧
      ((script devW 1).getD default).2 =
        [Event.api (APICall.openUnit 1), Event.api APICall.maximumValue,
         Event.api (APICall.setChannel 0 1 0 9 0),
         Event.api (APICall.setChannel 1 0 0 9 0),
         Event.api (APICall.setChannel 2 0 0 9 0),
         Event.api (APICall.setChannel 3 0 0 9 0),
         Event.api (APICall.setSimpleTrigger 1 0 0 2 0 10),
         Event.api (APICall.memorySegments 1),
         Event.api (APICall.setNoOfCaptures 1),
         Event.api (APICall.setDataBuffer 0 (List.replicate 100000 0) 100000 0 0)]
        ++ acqTrace 100000 1 k1
        ++ [Event.plotBuffer, Event.showPlot]
        ++ acqTrace 100000 1 k2
        ++ [Event.plotBuffer, Event.showPlot]
        ++ [Event.api (APICall.setChannel 0 0 0 9 0),
            Event.api (APICall.setChannel 1 1 0 9 0),
            Event.api (APICall.setDataBuffer 1 (List.replicate 100000 0)
              (i32 (devW.gvSamplesVal 1)) 0 0),
            Event.api (APICall.setSimpleTrigger 1 1 0 2 0 10)]
        ++ acqTrace 100000 1 k3
        ++ [Event.plotBuffer, Event.showPlot]
        ++ [Event.api APICall.stop, Event.api APICall.closeUnit]) :=
  ⟨rfl, script_fixed_call_sequence devW 1 _ rfl⟩

/-- C7: `stop_scope` issues `ps5000aStop` then `ps5000aCloseUnit` on the
same handle, in that order, storing both statuses and returning the status
of the close call; and in the example script these two calls are the final
device-API interactions — the script trace ends with them. -/
theorem stop_then_close_finalises :
    (∀ (s : PicoState) (dev : Device),
      stop_scope s dev =
        (dev.st_close,
          { s with status := dictSet (dictSet s.status "stop" dev.st_stop) "close" dev.st_close },
          [Event.api APICall.stop, Event.api APICall.closeUnit])) ∧
    (∀ (dev : Device) (fuel : Nat) (out : PicoState × List Event),
      script dev fuel = some out →
      ∃ pre, out.2 = pre ++ [Event.api APICall.stop, Event.api APICall.closeUnit]) := by
  refine ⟨fun s dev => rfl, ?_⟩
  intro dev fuel out h
  obtain ⟨k1, k2, k3, hk1, hk2, hk3, htr, hst⟩ := script_trace_spec dev fuel out h
  exact ⟨_, htr⟩

/-- Witness for C7: the concrete script run ends with Stop and CloseUnit. -/
theorem stop_then_close_finalises_witness :
    script devW 1 = some ((script devW 1).getD default) ∧
    (∃ pre, ((script devW 1).getD default).2
      = pre ++ [Event.api APICall.stop, Event.api APICall.closeUnit]) :=
  ⟨rfl, stop_then_close_finalises.2 devW 1 _ rfl⟩

/-- C1: In `run_block`, after `ps5000aRunBlock` is issued, the program
repeatedly calls `ps5000aIsReady` while `self.ready.value` equals
`self.check.value`, and `ps5000aGetValuesBulk` is never called before the
ready flag has changed from its initial value of 0: the emitted trace is
`RunBlock`, then `k ≥ 1` `IsReady` calls — all but the last of which wrote a
ready value still equal to 0 — then, only after the last poll wrote a nonzero
value, the single `GetValuesBulk` read-back. -/
theorem runBlock_polls_until_ready_before_read
    (s : PicoState) (dev : Device) (ck : Clocks) (fuel : Nat)
    (out : PicoState × Clocks × List Event)
    (h0 : s.ready = 0) (hc : s.check = 0)
    (h : run_block s dev ck fuel = some out) :
    ∃ k, 1 ≤ k ∧
      out.2.2 = Event.api (APICall.runBlock 0 s.samples s.timebase)
        :: (List.replicate k (Event.api APICall.isReady)
          ++ [Event.api (APICall.getValuesBulk 0 0)]) ∧
      i16 (dev.readyVal (ck.isReadyCalls + k - 1)) ≠ 0 ∧
      ∀ i < k - 1, i16 (dev.readyVal (ck.isReadyCalls + i)) = 0 := by
  have hready : s.ready = s.check := by rw [h0, hc]
  obtain ⟨k, hk1, htr, hck, hne, hall, hrest⟩ :=
    run_block_some_spec s dev ck fuel out hready h
  rw [hc] at hne hall
  exact ⟨k, hk1, htr, hne, hall⟩

/-- Witness for C1 at a concrete state and device. -/
theorem runBlock_polls_until_ready_before_read_witness :
    (mkPicoBlockCap 0 [[1, 2, 3]] 3).ready = 0 ∧
    (mkPicoBlockCap 0 [[1, 2, 3]] 3).check = 0 ∧
    run_block (mkPicoBlockCap 0 [[1, 2, 3]] 3) devW ⟨0, 0⟩ 1
      = some ((run_block (mkPicoBlockCap 0 [[1, 2, 3]] 3) devW ⟨0, 0⟩ 1).getD default) ∧
    (∃ k, 1 ≤ k ∧
      ((run_block (mkPicoBlockCap 0 [[1, 2, 3]] 3) devW ⟨0, 0⟩ 1).getD default).2.2
        = Event.api (APICall.runBlock 0 (mkPicoBlockCap 0 [[1, 2, 3]] 3).samples
            (mkPicoBlockCap 0 [[1, 2, 3]] 3).timebase)
          :: (List.replicate k (Event.api APICall.isReady)
            ++ [Event.api (APICall.getValuesBulk 0 0)]) ∧
      i16 (devW.readyVal ((Clocks.mk 0 0).isReadyCalls + k - 1)) ≠ 0 ∧
      ∀ i < k - 1, i16 (devW.readyVal ((Clocks.mk 0 0).isReadyCalls + i)) = 0) :=
  ⟨rfl, rfl, rfl,
    runBlock_polls_until_ready_before_read (mkPicoBlockCap 0 [[1, 2, 3]] 3) devW
      ⟨0, 0⟩ 1 _ rfl rfl rfl⟩

/-- C6: `run_block` is a blocking acquisition: starting from the initial
flag state (`ready = check = 0`), if some `ps5000aIsReady` call eventually
writes a nonzero ready value then the poll loop terminates (some finite
iteration bound yields a result), and if the device never reports ready the
loop never exits, whatever the bound. -/
theorem run_block_is_blocking (s : PicoState) (dev : Device) (ck : Clocks)
    (h0 : s.ready = 0) (hc : s.check = 0) :
    ((∃ n, i16 (dev.readyVal (ck.isReadyCalls + n)) ≠ 0) →
      ∃ fuel out, run_block s dev ck fuel = some out) ∧
    ((∀ n, i16 (dev.readyVal n) = 0) →
      ∀ fuel, run_block s dev ck fuel = none) := by
  constructor
  · rintro ⟨n, hn⟩
    have hterm := pollLoop_terminates dev 0 n ck.isReadyCalls
      (dictSet s.status "runblock" dev.st_runBlock) hn
    refine ⟨n + 1, ?_⟩
    simp only [run_block]
    rw [h0, hc]
    cases hp : pollLoop dev 0 0 ck.isReadyCalls
        (dictSet s.status "runblock" dev.st_runBlock) (n + 1) with
    | none => rw [hp] at hterm; simp at hterm
    | some val => exact ⟨_, rfl⟩
  · intro hall fuel
    simp only [run_block]
    rw [h0, hc]
    rw [pollLoop_stuck dev 0 hall fuel ck.isReadyCalls _]
    rfl

/-- Witness for C6: the immediately-ready device makes `run_block` return;
the never-ready device makes it spin for any bound. -/
theorem run_block_is_blocking_witness :
    (mkPicoBlockCap 0 [[1, 2, 3]] 3).ready = 0 ∧
    (mkPicoBlockCap 0 [[1, 2, 3]] 3).check = 0 ∧
    (∃ fuel out, run_block (mkPicoBlockCap 0 [[1, 2, 3]] 3) devW ⟨0, 0⟩ fuel = some out) ∧
    run_block (mkPicoBlockCap 0 [[1, 2, 3]] 3) devZ ⟨0, 0⟩ 5 = none := by
  refine ⟨rfl, rfl, ?_, ?_⟩
  · exact (run_block_is_blocking (mkPicoBlockCap 0 [[1, 2, 3]] 3) devW ⟨0, 0⟩
      rfl rfl).1 ⟨0, by decide⟩
  · exact (run_block_is_blocking (mkPicoBlockCap 0 [[1, 2, 3]] 3) devZ ⟨0, 0⟩
      rfl rfl).2 (fun n => rfl) 5

/-- C8: the invariant `ready = check = 0` holds at entry to every
`run_block` call: the constructor establishes `ready = 0` and `check = 0`,
every successful `run_block` restores `ready = 0` (the reset after
`GetValuesBulk`) and leaves `check` unchanged, and the other methods called
between acquisitions (`set_channel`, `set_simple_trigger`, `set_buffer`)
touch neither flag. -/
theorem ready_check_invariant :
    (∀ (h : Int) (b : List (List Int)) (n : Int),
      (mkPicoBlockCap h b n).ready = 0 ∧ (mkPicoBlockCap h b n).check = 0) ∧
    (∀ (s : PicoState) (dev : Device) (ck : Clocks) (fuel : Nat)
      (out : PicoState × Clocks × List Event),
      run_block s dev ck fuel = some out →
      out.1.ready = 0 ∧ out.1.check = s.check) ∧
    (∀ (s : PicoState) (dev : Device) (c e cp rg off : Int),
      (set_channel s dev c e cp rg off).2.1.ready = s.ready ∧
      (set_channel s dev c e cp rg off).2.1.check = s.check) ∧
    (∀ (s : PicoState) (dev : Device) (en so rg th di de au : Int),
      (set_simple_trigger s dev en so rg th di de au).2.1.ready = s.ready ∧
      (set_simple_trigger s dev en so rg th di de au).2.1.check = s.check) ∧
    (∀ (s : PicoState) (dev : Device) (c seg : Int) (b : List (List Int))
      (out : Int × PicoState × List Event),
      set_buffer s dev c b seg = some out →
      out.2.1.ready = s.ready ∧ out.2.1.check = s.check) := by
  refine ⟨fun h b n => ⟨rfl, rfl⟩, ?_, fun s dev c e cp rg off => ⟨rfl, rfl⟩,
    fun s dev en so rg th di de au => ⟨rfl, rfl⟩, ?_⟩
  · intro s dev ck fuel out h
    simp only [run_block] at h
    rw [Option.map_eq_some'] at h
    obtain ⟨pout, hpoll, hval⟩ := h
    subst hval
    exact ⟨rfl, rfl⟩
  · intro s dev c seg b out h
    cases b with
    | nil => simp [set_buffer] at h
    | cons b0 rest =>
      simp only [set_buffer] at h
      obtain rfl := (Option.some.inj h).symm
      exact ⟨rfl, rfl⟩

/-- C2: every `set_simple_trigger` call passes to `ps5000aSetSimpleTrigger`
the threshold `int(mV2adc(threshold_mv, range, self.max_adc))`, and
`open_unit` stores in `self.max_adc` the max-ADC value the device supplied
via `ps5000aMaximumValue`; hence after `open_unit` the trigger threshold is
the millivolt value converted through the device-supplied max-ADC count, and
no other method changes `max_adc`. -/
theorem trigger_threshold_uses_device_max_adc :
    (∀ (s : PicoState) (dev : Device) (res : Int),
      ((open_unit s dev res).2.1).max_adc = i16 dev.maxAdcVal) ∧
    (∀ (s : PicoState) (dev : Device) (en so rg th di de au : Int),
      (set_simple_trigger s dev en so rg th di de au).2.2 =
        [Event.api (APICall.setSimpleTrigger en so (mV2adc th rg s.max_adc) di de au)]) ∧
    (∀ (s : PicoState) (dev : Device) (res en so rg th di de au : Int),
      (set_simple_trigger ((open_unit s dev res).2.1) dev en so rg th di de au).2.2 =
        [Event.api (APICall.setSimpleTrigger en so
          (mV2adc th rg (i16 dev.maxAdcVal)) di de au)]) ∧
    (∀ (s : PicoState) (dev : Device) (c e cp rg off : Int),
      (set_channel s dev c e cp rg off).2.1.max_adc = s.max_adc) ∧
    (∀ (s : PicoState) (dev : Device) (cap : Int),
      (set_captures s dev cap).2.1.max_adc = s.max_adc) ∧
    (∀ (s : PicoState) (dev : Device) (c seg : Int) (b : List (List Int))
      (out : Int × PicoState × List Event),
      set_buffer s dev c b seg = some out → out.2.1.max_adc = s.max_adc) ∧
    (∀ (s : PicoState) (dev : Device) (ck : Clocks) (fuel : Nat)
      (out : PicoState × Clocks × List Event),
      run_block s dev ck fuel = some out → out.1.max_adc = s.max_adc) := by
  refine ⟨fun s dev res => rfl, fun s dev en so rg th di de au => rfl,
    fun s dev res en so rg th di de au => rfl,
    fun s dev c e cp rg off => rfl, fun s dev cap => rfl, ?_, ?_⟩
  · intro s dev c seg b out h
    cases b with
    | nil => simp [set_buffer] at h
    | cons b0 rest =>
      simp only [set_buffer] at h
      obtain rfl := (Option.some.inj h).symm
      rfl
  · intro s dev ck fuel out h
    simp only [run_block] at h
    rw [Option.map_eq_some'] at h
    obtain ⟨pout, hpoll, hval⟩ := h
    subst hval
    rfl

/-- Witness for C2 at a concrete state and device. -/
theorem trigger_threshold_uses_device_max_adc_witness :
    set_buffer (mkPicoBlockCap 0 [[1, 2, 3]] 3) devW 0 [[1, 2, 3]] 0
      = some ((set_buffer (mkPicoBlockCap 0 [[1, 2, 3]] 3) devW 0 [[1, 2, 3]] 0).getD default) ∧
    ((set_buffer (mkPicoBlockCap 0 [[1, 2, 3]] 3) devW 0 [[1, 2, 3]] 0).getD
        default).2.1.max_adc = (mkPicoBlockCap 0 [[1, 2, 3]] 3).max_adc ∧
    run_block (mkPicoBlockCap 0 [[1, 2, 3]] 3) devW ⟨0, 0⟩ 1
      = some ((run_block (mkPicoBlockCap 0 [[1, 2, 3]] 3) devW ⟨0, 0⟩ 1).getD default) ∧
    ((run_block (mkPicoBlockCap 0 [[1, 2, 3]] 3) devW ⟨0, 0⟩ 1).getD default).1.max_adc
      = (mkPicoBlockCap 0 [[1, 2, 3]] 3).max_adc :=
  ⟨rfl,
    trigger_threshold_uses_device_max_adc.2.2.2.2.2.1
      (mkPicoBlockCap 0 [[1, 2, 3]] 3) devW 0 0 [[1, 2, 3]] _ rfl,
    rfl,
    trigger_threshold_uses_device_max_adc.2.2.2.2.2.2
      (mkPicoBlockCap 0 [[1, 2, 3]] 3) devW ⟨0, 0⟩ 1 _ rfl⟩

/-- C9: after `initalise_parameters` on a freshly constructed object, the
status dict holds exactly one entry under `"set_source"`, and its value is
the status code of the final `set_channel` call (channel 3); the statuses of
the channel-0/1/2 calls are overwritten and retained nowhere. -/
theorem init_status_set_source_single
    (hd : Int) (b : List (List Int)) (n : Int) (dev : Device)
    (out : PicoState × List Event)
    (h : initalise_parameters (mkPicoBlockCap hd b n) dev = some out) :
    dictGet out.1.status "set_source" = some (dev.st_setChannel 3) ∧
    out.1.status.filter (fun p => p.1 == "set_source")
      = [("set_source", dev.st_setChannel 3)] := by
  cases b with
  | nil => exact Option.noConfusion h
  | cons b0 rest =>
    obtain rfl := (Option.some.inj h).symm
    exact ⟨rfl, rfl⟩

/-- Witness for C9 at a concrete construction and device. -/
theorem init_status_set_source_single_witness :
    initalise_parameters (mkPicoBlockCap 0 [[1, 2, 3]] 3) devW
      = some ((initalise_parameters (mkPicoBlockCap 0 [[1, 2, 3]] 3) devW).getD default) ∧
    dictGet ((initalise_parameters (mkPicoBlockCap 0 [[1, 2, 3]] 3) devW).getD
        default).1.status "set_source" = some (devW.st_setChannel 3) ∧
    ((initalise_parameters (mkPicoBlockCap 0 [[1, 2, 3]] 3) devW).getD
        default).1.status.filter (fun p => p.1 == "set_source")
      = [("set_source", devW.st_setChannel 3)] :=
  ⟨rfl, init_status_set_source_single 0 [[1, 2, 3]] 3 devW _ rfl⟩

/-- C10: the acquisition sample count comes solely from the constructor's
`buffer_size` argument: `samples = buffer_size` and
`max_samples = c_int32(buffer_size)` whatever the actual length of the numpy
array in `buffer`, and `set_buffer` registers `buffer[0]` with this
`max_samples` value, never with the array's true length. -/
theorem buffer_size_from_constructor
    (hd : Int) (buffer : List (List Int)) (buffer_size : Int) :
    (mkPicoBlockCap hd buffer buffer_size).samples = buffer_size ∧
    (mkPicoBlockCap hd buffer buffer_size).max_samples = i32 buffer_size ∧
    ∀ (dev : Device) (c seg : Int) (arr : List Int) (rest : List (List Int)),
      buffer = arr :: rest →
      set_buffer (mkPicoBlockCap hd buffer buffer_size) dev c buffer seg
        = some (dev.st_setDataBuffer, mkPicoBlockCap hd buffer buffer_size,
            [Event.api (APICall.setDataBuffer c arr (i32 buffer_size) seg 0)]) := by
  refine ⟨rfl, rfl, ?_⟩
  intro dev c seg arr rest hb
  subst hb
  rfl

/-- Witness for C10: a buffer whose single array has length 3 while
`buffer_size` is 7 — the registered length is still `c_int32(7)`. -/
theorem buffer_size_from_constructor_witness :
    (mkPicoBlockCap 0 [[1, 2, 3]] 7).samples = 7 ∧
    (mkPicoBlockCap 0 [[1, 2, 3]] 7).max_samples = i32 7 ∧
    ([[1, 2, 3]] : List (List Int)) = [1, 2, 3] :: [] ∧
    set_buffer (mkPicoBlockCap 0 [[1, 2, 3]] 7) devW 0 [[1, 2, 3]] 0
      = some (devW.st_setDataBuffer, mkPicoBlockCap 0 [[1, 2, 3]] 7,
          [Event.api (APICall.setDataBuffer 0 [1, 2, 3] (i32 7) 0 0)]) :=
  ⟨(buffer_size_from_constructor 0 [[1, 2, 3]] 7).1,
    (buffer_size_from_constructor 0 [[1, 2, 3]] 7).2.1,
    rfl,
    (buffer_size_from_constructor 0 [[1, 2, 3]] 7).2.2 devW 0 0 [1, 2, 3] [] rfl⟩

/-- Witness for C8 at a concrete state and device. -/
theorem ready_check_invariant_witness :
    run_block (mkPicoBlockCap 0 [[1, 2, 3]] 3) devW ⟨0, 0⟩ 1
      = some ((run_block (mkPicoBlockCap 0 [[1, 2, 3]] 3) devW ⟨0, 0⟩ 1).getD default) ∧
    (((run_block (mkPicoBlockCap 0 [[1, 2, 3]] 3) devW ⟨0, 0⟩ 1).getD default).1.ready = 0 ∧
      ((run_block (mkPicoBlockCap 0 [[1, 2, 3]] 3) devW ⟨0, 0⟩ 1).getD default).1.check
        = (mkPicoBlockCap 0 [[1, 2, 3]] 3).check) ∧
    set_buffer (mkPicoBlockCap 0 [[1, 2, 3]] 3) devW 0 [[1, 2, 3]] 0
      = some ((set_buffer (mkPicoBlockCap 0 [[1, 2, 3]] 3) devW 0 [[1, 2, 3]] 0).getD default) ∧
    (((set_buffer (mkPicoBlockCap 0 [[1, 2, 3]] 3) devW 0 [[1, 2, 3]] 0).getD default).2.1.ready
        = (mkPicoBlockCap 0 [[1, 2, 3]] 3).ready ∧
      ((set_buffer (mkPicoBlockCap 0 [[1, 2, 3]] 3) devW 0 [[1, 2, 3]] 0).getD default).2.1.check
        = (mkPicoBlockCap 0 [[1, 2, 3]] 3).check) :=
  ⟨rfl,
    ready_check_invariant.2.1 (mkPicoBlockCap 0 [[1, 2, 3]] 3) devW ⟨0, 0⟩ 1 _ rfl,
    rfl,
    ready_check_invariant.2.2.2.2 (mkPicoBlockCap 0 [[1, 2, 3]] 3) devW 0 0 [[1, 2, 3]] _ rfl⟩

/-! ## The HDF5 reader -/

/-- A successful run of the per-channel loop is exactly the concatenation of
the six-event blocks, one per channel id, in order. -/
theorem read_channels_spec (f : HFile) :
    ∀ (ids : List Nat) (tr : List HEvent),
      read_channels f ids = some tr → tr = ids.flatMap (channelBlock f) := by
  intro ids
  induction ids with
  | nil =>
    intro tr h
    obtain rfl := (Option.some.inj h).symm
    simp
  | cons id rest ih =>
    intro tr h
    simp only [read_channels] at h
    split at h
    · next counts pha heq1 heq2 =>
      split at h
      · next c0 ctail p0 p1 ptail =>
        split at h
        · next tr' hrest =>
          obtain rfl := (Option.some.inj h).symm
          have htr' := ih tr' hrest
          subst htr'
          simp [channelBlock, firstRow, secondRow, heq1, heq2]
        · exact Option.noConfusion h
      · exact Option.noConfusion h
    · exact Option.noConfusion h

/-- Each channel block contains exactly one event satisfying `g` whenever
`g` holds on exactly one of its six events; specialised below. -/
theorem bind_channelBlock_count (g : HEvent → Bool) (f : HFile)
    (hone : ∀ id, ((channelBlock f id).filter g).length = 1) :
    ∀ ids : List Nat,
      (((ids.flatMap (channelBlock f))).filter g).length = ids.length := by
  intro ids
  induction ids with
  | nil => simp
  | cons id rest ih =>
    simp [List.filter_append, hone id, ih]
    omega

/-- C4: for every entry of the `active_channels` metadata attribute,
`read_hdf5` reads the datasets `adc_counts_<id>` and `pha_<id>` and renders,
per channel and in order, first the waveform of the first capture
(`counts[0]`) and then the pulse-height histogram (`pha[0]` against
`pha[1]`); exactly one waveform plot and one PHA plot are produced per
active channel. -/
theorem read_hdf5_renders_per_channel (f : HFile) (tr : List HEvent)
    (h : read_hdf5 f = some tr) :
    tr = f.active_channels.flatMap (channelBlock f) ∧
    (tr.filter isWaveformPlot).length = f.active_channels.length ∧
    (tr.filter isPHAPlot).length = f.active_channels.length := by
  have hspec := read_channels_spec f f.active_channels tr h
  subst hspec
  exact ⟨rfl, bind_channelBlock_count isWaveformPlot f (fun id => rfl) _,
    bind_channelBlock_count isPHAPlot f (fun id => rfl) _⟩

/-- Witness for C4 at a concrete one-channel archive. -/
theorem read_hdf5_renders_per_channel_witness :
    read_hdf5 fW = some ((read_hdf5 fW).getD default) ∧
    ((read_hdf5 fW).getD default = fW.active_channels.flatMap (channelBlock fW) ∧
      (((read_hdf5 fW).getD default).filter isWaveformPlot).length
        = fW.active_channels.length ∧
      (((read_hdf5 fW).getD default).filter isPHAPlot).length
        = fW.active_channels.length) :=
  ⟨rfl, read_hdf5_renders_per_channel fW _ rfl⟩

end Pico
